import Mathlib

/-!
Verification development for the DocVerify web application.

The development is a shallow embedding of the document-verification logic of
the repository: the client uploader component (DocumentUploader.tsx), the
gemini-verification API route, and the admin API routes.  JavaScript numbers
are modelled as exact rationals, strings as Lean strings over Unicode scalar
values, and host services (identity provider, Firestore, the hosted LLM and
JSON.parse) as explicit oracles passed to the embedded handlers.  Each
definition is transcribed from the cited source lines.
-/

/-- ASCII subset of the JavaScript regular-expression whitespace class
backslash-s, used by the embedded regexes and by the trim and
whitespace-collapse operations of the uploader. -/
def isJsSpace (c : Char) : Bool :=
  c = ' ' || c = '\t' || c = '\n' || c = '\r' || c = '\x0b' || c = '\x0c'

/-- Word character for JavaScript regex word boundaries: letters, digits and
underscore. -/
def isWordChar (c : Char) : Bool :=
  c.isAlpha || c.isDigit || c = '_'

/-- ASCII lower-casing on the underlying character list, modelling
String.prototype.toLowerCase on the ASCII range. -/
def jsToLower (s : String) : String :=
  String.mk (s.toList.map Char.toLower)

/-- Splits a character list at every occurrence of the separator, modelling
String.prototype.split with a single-character separator. -/
def splitChar (sep : Char) : List Char → List (List Char)
  | [] => [[]]
  | c :: rest =>
    let r := splitChar sep rest
    if c = sep then [] :: r
    else
      match r with
      | h :: t => (c :: h) :: t
      | [] => [[c]]

/-- Contiguous-sublist test on character lists, scanning every suffix for the
needle as a prefix. -/
def listIsSub (needle : List Char) : List Char → Bool
  | [] => needle.isEmpty
  | c :: rest => needle.isPrefixOf (c :: rest) || listIsSub needle rest

/-- Substring test modelling the JavaScript String.prototype.includes call. -/
def strIncludes (hay needle : String) : Bool :=
  listIsSub needle.toList hay.toList

/-- Case-insensitive substring test: both sides lowercased, modelling a
case-insensitive regex alternation of plain words. -/
def strIncludesCI (hay needle : String) : Bool :=
  strIncludes (jsToLower hay) needle

/-- Prefix test on strings, stated on the underlying character lists so
that prefix lemmas can be proved by list induction. -/
def strHasPre (pre s : String) : Bool :=
  pre.toList.isPrefixOf s.toList

/-- Embedding of the regex fake|copy|specimen|sample|test with the i flag
(DocumentUploader.tsx, suspicious text patterns at lines 349 and 429). -/
def suspiciousTermsTest (s : String) : Bool :=
  ["fake", "copy", "specimen", "sample", "test"].any (fun w => strIncludesCI s w)

/-- Embedding of the regex temp|untitled|unnamed|copy|fake|test|sample with
the i flag (DocumentUploader.tsx lines 488 and 1013). -/
def suspiciousNameTest (s : String) : Bool :=
  ["temp", "untitled", "unnamed", "copy", "fake", "test", "sample"].any
    (fun w => strIncludesCI s w)

/-- Drops an expected literal character sequence from the front of a list,
failing when the list does not start with it. -/
def stripLeading : List Char → List Char → Option (List Char)
  | [], l => some l
  | _ :: _, [] => none
  | a :: p, b :: l => if a = b then stripLeading p l else none

/-- Word boundary immediately before the given suffix: end of string or a
non-word character. -/
def wordBoundaryAfter : List Char → Bool
  | [] => true
  | c :: _ => !(isWordChar c)

/-- Matches (valid|official) followed by a word boundary at the head of the
list (a component of the embedded disclaimer regex). -/
def validOfficialHere (l : List Char) : Bool :=
  (match stripLeading "valid".toList l with
   | some rest => wordBoundaryAfter rest
   | none => false) ||
  (match stripLeading "official".toList l with
   | some rest => wordBoundaryAfter rest
   | none => false)

/-- Matches the optional separator character class, one whitespace or hyphen,
then (valid|official) with its closing word boundary. -/
def afterNotNon (l : List Char) : Bool :=
  validOfficialHere l ||
  (match l with
   | c :: rest => (isJsSpace c || c = '-') && validOfficialHere rest
   | [] => false)

/-- Matches (not|non)[ws-]?(valid|official) with the closing word boundary at
the head of the list. -/
def notNonHere (l : List Char) : Bool :=
  (match stripLeading "not".toList l with
   | some rest => afterNotNon rest
   | none => false) ||
  (match stripLeading "non".toList l with
   | some rest => afterNotNon rest
   | none => false)

/-- Scans every position of the list for a match of the embedded disclaimer
regex, tracking the previous character so the opening word boundary can be
checked. -/
def scanNotValid : List Char → Option Char → Bool
  | [], _ => false
  | c :: rest, prev =>
    ((match prev with
      | none => true
      | some p => !(isWordChar p)) && notNonHere (c :: rest))
    || scanNotValid rest (some c)

/-- Embedding of the regex backslash-b(not|non)[ws-]?(valid|official)
backslash-b with the i flag (DocumentUploader.tsx lines 350 and 430). -/
def notValidTest (s : String) : Bool :=
  scanNotValid (jsToLower s).toList none

/-- Collapses every run of whitespace into a single space, modelling the
JavaScript replace of the whitespace-run regex by one space.  The Boolean
records whether the previous character was whitespace, so only the first
character of a run emits the space. -/
def collapseWsAux : List Char → Bool → List Char
  | [], _ => []
  | c :: rest, prevWs =>
    if isJsSpace c then
      (if prevWs then [] else [' ']) ++ collapseWsAux rest true
    else c :: collapseWsAux rest false

/-- The whitespace-run collapse starting outside a run. -/
def collapseWs (l : List Char) : List Char :=
  collapseWsAux l false

/-- Removes leading and trailing whitespace, modelling String.prototype.trim. -/
def trimJs (l : List Char) : List Char :=
  ((l.dropWhile isJsSpace).reverse.dropWhile isJsSpace).reverse

/-- The text clean-up of the uploader OCR step: collapse whitespace runs to a
single space, then trim (DocumentUploader.tsx lines 1222-1224). -/
def cleanOcrText (s : String) : String :=
  String.mk (trimJs (collapseWs s.toList))

/-- Host-side outcome of the in-browser OCR attempt for a non-PDF file:
the image element failed to load, Tesseract.recognize rejected, or OCR
succeeded producing raw text and a confidence in percent. -/
inductive OcrOutcome where
  | loadFail
  | recognizeFail
  | ok (text : String) (confidencePercent : ℚ)
deriving DecidableEq

/-- Embedding of the client extractTextFromImage function
(DocumentUploader.tsx lines 1167-1250).  The file is represented by its MIME
type and the host OCR behaviour by an OcrOutcome.  PDFs short-circuit to a
fixed placeholder; a load or recognition failure is caught and mapped to the
fallback pair; otherwise the cleaned text and the confidence divided by 100
are returned, with a fixed low-information result when the cleaned text has
fewer than 5 characters and the confidence is below 0.3. -/
def extractTextFromImage (fileType : String) (oc : OcrOutcome) : String × ℚ :=
  if fileType = "application/pdf" then
    ("PDF text extraction requires server-side processing.", 0.5)
  else
    match oc with
    | .loadFail =>
        ("Text extraction failed. The document may be encrypted, damaged, or in an unsupported format.", 0)
    | .recognizeFail =>
        ("Text extraction failed. The document may be encrypted, damaged, or in an unsupported format.", 0)
    | .ok text confidencePercent =>
        let confidence := confidencePercent / 100
        let extractedText := cleanOcrText text
        if extractedText.length < 5 ∧ confidence < 0.3 then
          ("No meaningful text could be extracted from this document.", 0.1)
        else
          (extractedText, confidence)

/-- Numeric value of a hexadecimal digit, upper or lower case. -/
def hexVal (c : Char) : Option ℕ :=
  if '0' ≤ c ∧ c ≤ '9' then some (c.toNat - '0'.toNat)
  else if 'a' ≤ c ∧ c ≤ 'f' then some (c.toNat - 'a'.toNat + 10)
  else if 'A' ≤ c ∧ c ≤ 'F' then some (c.toNat - 'A'.toNat + 10)
  else none

/-- Lower-case hexadecimal digit test, the character class of the PDF
metadata escape-rewriting regex. -/
def isHexLower (c : Char) : Bool :=
  ('0' ≤ c && c ≤ '9') || ('a' ≤ c && c ≤ 'f')

/-- Embedding of the global replace of a backslash followed by two lower-case
hex digits by a percent sign and the digits, applied to captured PDF metadata
values before decoding (DocumentUploader.tsx lines 1047, 1053, 1059, 1065). -/
def escReplaceFuel : ℕ → List Char → List Char
  | 0, l => l
  | _ + 1, [] => []
  | fuel + 1, '\\' :: a :: b :: rest2 =>
    if isHexLower a && isHexLower b then '%' :: a :: b :: escReplaceFuel fuel rest2
    else '\\' :: escReplaceFuel fuel (a :: b :: rest2)
  | fuel + 1, c :: rest => c :: escReplaceFuel fuel rest

/-- The escape rewrite with enough fuel to process the whole list; the fuel
only bounds the recursion and every call site consumes at least one
character per unit. -/
def escReplace (l : List Char) : List Char :=
  escReplaceFuel l.length l

/-- A token of the percent-decoding pass: either an unescaped character or
the byte value of a percent escape. -/
inductive PctTok where
  | chr (c : Char)
  | byte (b : ℕ)
deriving DecidableEq

/-- First pass of decodeURIComponent: every percent sign must be followed by
two hexadecimal digits and becomes a byte token; other characters pass
through. -/
def pctTokenizeFuel : ℕ → List Char → Option (List PctTok)
  | 0, _ => some []
  | _ + 1, [] => some []
  | fuel + 1, '%' :: a :: b :: rest2 =>
    (match hexVal a, hexVal b with
     | some x, some y =>
       (pctTokenizeFuel fuel rest2).map (fun ts => PctTok.byte (16 * x + y) :: ts)
     | _, _ => none)
  | _ + 1, '%' :: _ => none
  | fuel + 1, c :: rest => (pctTokenizeFuel fuel rest).map (fun ts => PctTok.chr c :: ts)

/-- The tokenizing pass with enough fuel to process the whole list. -/
def pctTokenize (l : List Char) : Option (List PctTok) :=
  pctTokenizeFuel l.length l

/-- UTF-8 continuation byte test. -/
def isContByte (b : ℕ) : Bool :=
  0x80 ≤ b && b ≤ 0xBF

/-- Decodes one multi-byte UTF-8 sequence whose lead byte is b, taking its
continuation bytes from the token list and returning the decoded character
with the remaining tokens: strict UTF-8, failing on malformed, overlong,
surrogate or out-of-range sequences, exactly the cases where the JavaScript
builtin throws a URIError. -/
def decodeMultiByte (b : ℕ) (rest : List PctTok) : Option (Char × List PctTok) :=
  if 0xC2 ≤ b ∧ b ≤ 0xDF then
    match rest with
    | .byte b2 :: rest2 =>
      if isContByte b2 then
        some (Char.ofNat ((b - 0xC0) * 0x40 + (b2 - 0x80)), rest2)
      else none
    | _ => none
  else if 0xE0 ≤ b ∧ b ≤ 0xEF then
    match rest with
    | .byte b2 :: .byte b3 :: rest2 =>
      if isContByte b2 && isContByte b3 then
        let v := (b - 0xE0) * 0x1000 + (b2 - 0x80) * 0x40 + (b3 - 0x80)
        if 0x800 ≤ v ∧ ¬(0xD800 ≤ v ∧ v ≤ 0xDFFF) then
          some (Char.ofNat v, rest2)
        else none
      else none
    | _ => none
  else if 0xF0 ≤ b ∧ b ≤ 0xF4 then
    match rest with
    | .byte b2 :: .byte b3 :: .byte b4 :: rest2 =>
      if isContByte b2 && isContByte b3 && isContByte b4 then
        let v := (b - 0xF0) * 0x40000 + (b2 - 0x80) * 0x1000 +
          (b3 - 0x80) * 0x40 + (b4 - 0x80)
        if 0x10000 ≤ v ∧ v ≤ 0x10FFFF then
          some (Char.ofNat v, rest2)
        else none
      else none
    | _ => none
  else none

/-- Second pass of decodeURIComponent: decodes the byte tokens as strict
UTF-8, one-byte values directly and multi-byte sequences through
decodeMultiByte.  The fuel only bounds the recursion; every step consumes at
least one token. -/
def pctDecodeToksFuel : ℕ → List PctTok → Option (List Char)
  | 0, _ => some []
  | _ + 1, [] => some []
  | fuel + 1, .chr c :: rest => (pctDecodeToksFuel fuel rest).map (fun l => c :: l)
  | fuel + 1, .byte b :: rest =>
    if b < 0x80 then
      (pctDecodeToksFuel fuel rest).map (fun l => Char.ofNat b :: l)
    else
      match decodeMultiByte b rest with
      | some (ch, rest2) => (pctDecodeToksFuel fuel rest2).map (fun l => ch :: l)
      | none => none

/-- The UTF-8 decoding pass with enough fuel to process the whole list. -/
def pctDecodeToks (l : List PctTok) : Option (List Char) :=
  pctDecodeToksFuel l.length l

/-- Embedding of the JavaScript decodeURIComponent builtin: none models a
thrown URIError. -/
def decodeURIComponent (s : String) : Option String :=
  match pctTokenize s.toList with
  | none => none
  | some ts =>
    match pctDecodeToks ts with
    | none => none
    | some l => some (String.mk l)

/-- JavaScript dot in a regex without the s flag does not match line
terminators. -/
def isLineTerm (c : Char) : Bool :=
  c = '\n' || c = '\r' || c = '\u2028' || c = '\u2029'

/-- Lazy capture of the group in the PDF metadata regexes: the characters up
to the first closing parenthesis, failing when a line terminator or the end
of input is reached first. -/
def captureUptoParen : List Char → Option (List Char)
  | [] => none
  | c :: rest =>
    if c = ')' then some []
    else if isLineTerm c then none
    else (captureUptoParen rest).map (fun l => c :: l)

/-- Tries to match one PDF metadata regex at the head of the list: the key
literal, greedy whitespace, an opening parenthesis, then the lazy capture. -/
def captureAt (key : List Char) (l : List Char) : Option (List Char) :=
  match stripLeading key l with
  | none => none
  | some r1 =>
    match r1.dropWhile isJsSpace with
    | '(' :: r3 => captureUptoParen r3
    | _ => none

/-- Scans left to right for the first position where the PDF metadata regex
matches, the first-match semantics of String.prototype.match. -/
def captureScan (key : List Char) : List Char → Option (List Char)
  | [] => none
  | c :: rest =>
    match captureAt key (c :: rest) with
    | some cap => some cap
    | none => captureScan key rest

/-- Embedding of content.match of the regex slash-Key whitespace-star
parenthesised lazy group (DocumentUploader.tsx lines 1045-1066), returning
the captured group of the first match. -/
def regexCapture (content key : String) : Option String :=
  (captureScan key.toList content.toList).map String.mk

/-- Result of extracting one PDF metadata field: the decode threw, the field
is absent (no match or empty capture), or a decoded value was stored. -/
inductive FieldRes where
  | thrown
  | absent
  | val (s : String)
deriving DecidableEq

/-- One metadata field extraction of extractPdfMetadata: regex capture, then
the escape rewrite and decodeURIComponent of the captured value; an empty
capture is not stored and a decode failure models the thrown URIError. -/
def extractField (content key : String) : FieldRes :=
  match regexCapture content key with
  | none => .absent
  | some cap =>
    if cap = "" then .absent
    else
      match decodeURIComponent (String.mk (escReplace cap.toList)) with
      | none => .thrown
      | some v => .val v

/-- The suspicious creator and producer terms of the metadata pattern check
(DocumentUploader.tsx lines 1069-1070). -/
def suspiciousAITerms : List String :=
  ["AI", "Generated", "GPT", "DALL-E", "Midjourney", "Stable Diffusion"]

/-- The truthiness-guarded case-sensitive includes check applied to the
stored Creator and Producer values (lines 1073 and 1078). -/
def fieldAISusp : FieldRes → Bool
  | .val v => v ≠ "" && suspiciousAITerms.any (fun t => strIncludes v t)
  | _ => false

/-- Falsiness of a stored metadata field, the test of the
missing-metadata count (line 1084). -/
def fieldFalsy : FieldRes → Bool
  | .absent => true
  | .val v => v = ""
  | .thrown => true

/-- Metadata entry stored for an extracted field, empty when nothing was
stored. -/
def fieldEntry (name : String) : FieldRes → List (String × String)
  | .val v => [(name, v)]
  | _ => []

/-- The creator AI-suspicion flag of the metadata pattern check (line 1073). -/
def pdfCreatorSusp (content : String) : Bool :=
  fieldAISusp (extractField content "/Creator")

/-- The producer AI-suspicion flag of the metadata pattern check (line 1078). -/
def pdfProducerSusp (content : String) : Bool :=
  fieldAISusp (extractField content "/Producer")

/-- The missing-metadata flag: at least three of the four standard fields
are falsy (lines 1084-1085). -/
def pdfMissingMetaFlag (content : String) : Bool :=
  3 ≤ (([extractField content "/Title", extractField content "/Author",
    extractField content "/Creator", extractField content "/Producer"].filter
      (fun r => fieldFalsy r)).length)

/-- The inner try block of extractPdfMetadata (lines 1039-1093): the four
field extractions in order, each decode failure aborting to the catch that
stores the Status entry, then the creator and producer AI checks and the
missing-metadata check.  Returns the added metadata entries, the added
anomalies and the total extra confidence penalty. -/
def pdfContentAnalysis (content : String) :
    List (String × String) × List String × ℚ :=
  let tRes := extractField content "/Title"
  if tRes = .thrown then ([("Status", "Limited metadata extraction")], [], 0)
  else
    let aRes := extractField content "/Author"
    if aRes = .thrown then
      (fieldEntry "Title" tRes ++ [("Status", "Limited metadata extraction")], [], 0)
    else
      let cRes := extractField content "/Creator"
      if cRes = .thrown then
        (fieldEntry "Title" tRes ++ fieldEntry "Author" aRes ++
          [("Status", "Limited metadata extraction")], [], 0)
      else
        let pRes := extractField content "/Producer"
        if pRes = .thrown then
          (fieldEntry "Title" tRes ++ fieldEntry "Author" aRes ++
            fieldEntry "Creator" cRes ++
            [("Status", "Limited metadata extraction")], [], 0)
        else
          let anoms :=
            (if pdfCreatorSusp content then
              ["Document creator suggests AI generation"] else []) ++
            (if pdfProducerSusp content then
              ["Document producer suggests AI generation"] else []) ++
            (if pdfMissingMetaFlag content then
              ["Document is missing most standard metadata fields"] else [])
          let pen : ℚ :=
            (if pdfCreatorSusp content then 0.3 else 0) +
            (if pdfProducerSusp content then 0.3 else 0) +
            (if pdfMissingMetaFlag content then 0.2 else 0)
          (fieldEntry "Title" tRes ++ fieldEntry "Author" aRes ++
            fieldEntry "Creator" cRes ++ fieldEntry "Producer" pRes, anoms, pen)

/-- A browser File value as the uploader sees it: name, byte size, MIME type,
byte content (identified with its text decoding, adequate for the ASCII
metadata the checks inspect) and last-modified timestamp. -/
structure JsFile where
  name : String
  size : ℕ
  mimeType : String
  content : String
  lastModified : ℤ
deriving DecidableEq

/-- Embedding of readFileHeader (lines 1144-1162): the first n bytes of the
file as characters. -/
def readFileHeader (f : JsFile) (n : ℕ) : String :=
  String.mk (f.content.toList.take n)

/-- PDF smaller than 10KB (line 1002). -/
def pdfSmallFlag (file : JsFile) : Bool :=
  file.size < 10000

/-- Valid PDF header check (lines 1005-1006). -/
def pdfHeaderOK (file : JsFile) : Bool :=
  readFileHeader file 5 = "%PDF-"

/-- Correct PDF MIME type check (lines 1009 and 413). -/
def pdfTypeOK (file : JsFile) : Bool :=
  file.mimeType = "application/pdf"

/-- Suspicious-filename check on the lowercased name (lines 1012-1013). -/
def pdfNameFlag (file : JsFile) : Bool :=
  suspiciousNameTest (jsToLower file.name)

/-- The toFixed(2) display of size divided by 1024, rounding half up; no
claim depends on the exact digits. -/
def toFixed2KB (size : ℕ) : String :=
  let hundredths := (size * 100 * 2 + 1024) / 2048
  let intPart := hundredths / 100
  let fracPart := hundredths % 100
  toString intPart ++ "." ++ (if fracPart < 10 then "0" else "") ++ toString fracPart

/-- The File Size metadata display string. -/
def fileSizeKB (size : ℕ) : String :=
  toFixed2KB size ++ " KB"

/-- JavaScript Math.round: round half toward positive infinity. -/
def jsRound (q : ℚ) : ℤ :=
  ⌊q + 1 / 2⌋

/-- Result of the PDF metadata analysis. -/
structure PdfAnalysis where
  metadata : List (String × String)
  anomalies : List String
  confidenceScore : ℚ
deriving DecidableEq

/-- Embedding of extractPdfMetadata (DocumentUploader.tsx lines 993-1120).
The readFails flag models the outer try failing while the host FileReader
reads the file; its catch returns the fixed fallback analysis.  Otherwise
the four header checks accumulate anomalies and penalties from the starting
score 0.95, the content analysis runs only when the PDF header is valid, and
the final score is clamped by Math.max(0.1, Math.min(1, score)).  The
locale-dependent Last Modified display is modelled by the numeric
timestamp. -/
def extractPdfMetadata (readFails : Bool) (file : JsFile) : PdfAnalysis :=
  if readFails then
    { metadata := [("Error", "Failed to analyze document structure"),
        ("File Size", fileSizeKB file.size), ("File Type", file.mimeType)],
      anomalies := ["Error analyzing PDF structure"],
      confidenceScore := 0.5 }
  else
    let anomalies :=
      (if pdfSmallFlag file then ["Unusually small file size for a PDF"] else []) ++
      (if !pdfHeaderOK file then ["File does not have a valid PDF header"] else []) ++
      (if !pdfTypeOK file then ["File does not have the correct PDF MIME type"] else []) ++
      (if pdfNameFlag file then ["Document has a potentially suspicious filename"] else [])
    let confidenceScore : ℚ := 0.95
      - (if pdfSmallFlag file then 0.2 else 0)
      - (if !pdfHeaderOK file then 0.5 else 0)
      - (if !pdfTypeOK file then 0.3 else 0)
      - (if pdfNameFlag file then 0.2 else 0)
    let metadata : List (String × String) :=
      [("File Name", file.name), ("File Size", fileSizeKB file.size),
       ("File Type", file.mimeType),
       ("Valid PDF Header", if pdfHeaderOK file then "Yes" else "No"),
       ("Last Modified", toString file.lastModified)]
    let extra := if pdfHeaderOK file then pdfContentAnalysis file.content else ([], [], 0)
    { metadata := metadata ++ extra.1,
      anomalies := anomalies ++ extra.2.1,
      confidenceScore := max 0.1 (min 1 (confidenceScore - extra.2.2)) }

/-- Anomaly description recorded when the suspicious-terms regex matches the
extracted text (lines 349 and 429). -/
def ocrAnomalyTermsDesc : String :=
  "Contains terms like \u0027fake\u0027, \u0027copy\u0027, \u0027specimen\u0027"

/-- Anomaly description recorded when the disclaimer regex matches the
extracted text (lines 350 and 430). -/
def ocrAnomalyDisclaimerDesc : String :=
  "Contains disclaimers like \u0027not valid\u0027"

/-- The anomaly descriptions collected by the suspicious-text-pattern loop,
in pattern order (DocumentUploader.tsx lines 347-358 and 427-438). -/
def ocrTextAnomalies (text : String) : List String :=
  (if suspiciousTermsTest text then [ocrAnomalyTermsDesc] else []) ++
  (if notValidTest text then [ocrAnomalyDisclaimerDesc] else [])

/-- The total confidence penalty of the same loop on the PDF path: 0.2 per
matching pattern (DocumentUploader.tsx line 436). -/
def ocrTextPenalty (text : String) : ℚ :=
  (if suspiciousTermsTest text then 0.2 else 0) +
  (if notValidTest text then 0.2 else 0)

/-- Verification details reported for a document file by the fall-back path
of handleFileUpload. -/
structure DocVerification where
  isLikelyGenuine : Bool
  isLikelyAiGenerated : Bool
  detectedAnomalies : List String
  confidenceScore : ℚ
  analysisExplanation : String
  metadata : List (String × String)
  extractedText : String
  textConfidence : ℚ
deriving DecidableEq

/-- The critical-anomaly scan deciding isLikelyAiGenerated
(DocumentUploader.tsx lines 521-526). -/
def criticalAnomalyScan (anomalies : List String) : Bool :=
  anomalies.any (fun a =>
    strIncludes a "does not have a valid PDF header" ||
    strIncludes a "File extension doesn\u0027t match" ||
    strIncludes a "fake" ||
    strIncludes a "specimen")

/-- MIME type expected for a declared document extension (lines 492-495). -/
def expectedDocMimeType (ext : String) : Option String :=
  if ext = "doc" then some "application/msword"
  else if ext = "docx" then
    some "application/vnd.openxmlformats-officedocument.wordprocessingml.document"
  else none

/-- Document smaller than 10KB (line 485). -/
def docSmallFlag (file : JsFile) : Bool :=
  file.size < 10000

/-- Suspicious-filename check on the raw name (line 488). -/
def docNameFlag (file : JsFile) : Bool :=
  suspiciousNameTest file.name

/-- The declared extension: the last dot-separated component of the name,
lowercased (line 491). -/
def docDeclaredExtension (file : JsFile) : String :=
  jsToLower (String.mk ((splitChar '.' file.name.toList).getLastD []))

/-- The extension-versus-MIME-type mismatch check (lines 492-496). -/
def docTypeMismatchFlag (file : JsFile) : Bool :=
  (expectedDocMimeType (docDeclaredExtension file)).isSome &&
    (expectedDocMimeType (docDeclaredExtension file) != some file.mimeType)

/-- Embedding of the document (non-image) branch of handleFileUpload
(DocumentUploader.tsx lines 384-558), the verification used when the Gemini
call is unavailable.  For PDFs: pdfPipelineFails models the catch of the PDF
processing pipeline (basic metadata, one anomaly, score 0.7); otherwise the
PDF metadata analysis runs, and when the extracted text is truthy the OCR
metadata entries are added and the suspicious-text loop appends anomalies
and subtracts 0.2 per match.  For other document types the three basic
checks run from the starting score 0.9.  The final score is clamped by
Math.max(0.1, Math.min(1, score)). -/
def documentVerification (file : JsFile) (readFails pdfPipelineFails : Bool)
    (extractedText : String) (textConfidence : ℚ) : DocVerification :=
  let core :=
    if pdfTypeOK file then
      if pdfPipelineFails then
        (["Could not fully analyze PDF structure"], (0.7 : ℚ),
         [("File Name", file.name), ("File Size", fileSizeKB file.size),
          ("File Type", file.mimeType),
          ("Status", "Limited analysis - PDF may be encrypted or damaged")])
      else
        let pdfA := extractPdfMetadata readFails file
        if extractedText = "" then
          (pdfA.anomalies, pdfA.confidenceScore, pdfA.metadata)
        else
          (pdfA.anomalies ++ ocrTextAnomalies extractedText,
           pdfA.confidenceScore - ocrTextPenalty extractedText,
           pdfA.metadata ++
             [("OCR Text Length", toString extractedText.length ++ " characters"),
              ("OCR Confidence", toString (jsRound (textConfidence * 100)) ++ "%")])
    else
      let anomalies :=
        (if docSmallFlag file then
          ["Unusually small file size for a document"] else []) ++
        (if docNameFlag file then
          ["Document has a potentially suspicious filename"] else []) ++
        (if docTypeMismatchFlag file then
          ["File extension doesn\u0027t match the actual file type"] else [])
      let score : ℚ := 0.9
        - (if docSmallFlag file then 0.3 else 0)
        - (if docNameFlag file then 0.2 else 0)
        - (if docTypeMismatchFlag file then 0.4 else 0)
      (anomalies, score,
       [("File Size", fileSizeKB file.size), ("File Type", file.mimeType),
        ("File Name", file.name)])
  let anomalies := core.1
  let confidenceScore := max 0.1 (min 1 core.2.1)
  let isAiGen := criticalAnomalyScan anomalies
  { isLikelyGenuine := !isAiGen
    isLikelyAiGenerated := isAiGen
    detectedAnomalies := anomalies
    confidenceScore := confidenceScore
    analysisExplanation :=
      if 0 < anomalies.length then
        "Document verification found " ++ toString anomalies.length ++
        " potential issue" ++ (if anomalies.length = 1 then "" else "s") ++
        ", but " ++
        (if !isAiGen then "these are not critical to authenticity"
         else "some critical issues were detected") ++ "."
      else "Document appears to be genuine based on file characteristics."
    metadata := core.2.2
    extractedText := extractedText
    textConfidence := textConfidence }

/-- Embedding of text.match of the regex \x7b[sS]*\x7d used on the LLM
reply (route line 295): with a greedy star over every character the first
match spans from the first opening brace to the last closing brace, and
there is no match when no opening brace is followed by a closing one. -/
def extractJsonBlock (s : String) : Option String :=
  let l := s.toList
  match l.findIdx? (fun c => c = '\x7b') with
  | none => none
  | some i =>
    match l.reverse.findIdx? (fun c => c = '\x7d') with
    | none => none
    | some rj =>
      let j := l.length - 1 - rj
      if i < j then some (String.mk ((l.drop i).take (j - i + 1))) else none

/-- The verification object exchanged with the Gemini route. -/
structure Verification where
  isLikelyGenuine : Bool
  isLikelyAiGenerated : Bool
  detectedAnomalies : List String
  confidenceScore : ℚ
  analysisExplanation : String
deriving DecidableEq

/-- Host-side outcome of the hosted LLM interaction inside analyzeWithGemini:
model instantiation threw, generateContent rejected with a message, the
30-second timeout fired, reading the response text threw, or a free-text
reply was produced. -/
inductive LlmOutcome where
  | modelCreateFail
  | callFail (msg : String)
  | timeout
  | responseTextFail
  | reply (text : String)
deriving DecidableEq

/-- The user-friendly error classifier of the analyzeWithGemini catch
(route lines 316-323). -/
def geminiFriendlyError (msg : String) : String :=
  if strIncludes msg "429 Too Many Requests" || strIncludes msg "quota" then
    "API rate limit reached"
  else if strIncludes msg "401" || strIncludes msg "403" then
    "API authentication error"
  else if strIncludes msg "timeout" then "API request timed out"
  else "API connection issue"

/-- The mock verification object returned by the analyzeWithGemini catch
(route lines 325-331). -/
def geminiInternalMock (msg : String) : Verification :=
  { isLikelyGenuine := true, isLikelyAiGenerated := false,
    detectedAnomalies := [], confidenceScore := 0.9,
    analysisExplanation :=
      "This is a mock verification result. Reason: " ++ geminiFriendlyError msg }

/-- Embedding of the analyzeWithGemini function of the gemini-verification
route (lines 180-333).  Every failure inside the try, including an
uninitialized client, a failed or timed-out API call, and a reply without a
parseable JSON block, is caught by the function-level catch and mapped to
the internal mock object; prompt construction is abstracted by the
LlmOutcome oracle since the reply text is host-determined. -/
def analyzeWithGemini (genAIInit : Bool) (llm : LlmOutcome)
    (jsonParse : String → Option Verification) : Verification :=
  if ¬genAIInit then geminiInternalMock "Gemini API not initialized"
  else
    match llm with
    | .modelCreateFail => geminiInternalMock "Failed to create Gemini model instance"
    | .callFail msg => geminiInternalMock ("Gemini API call failed: " ++ msg)
    | .timeout =>
      geminiInternalMock "Gemini API call failed: API call timed out after 30 seconds"
    | .responseTextFail => geminiInternalMock "Failed to get response text from Gemini API"
    | .reply text =>
      match extractJsonBlock text with
      | none => geminiInternalMock "Failed to parse Gemini API response"
      | some block =>
        match jsonParse block with
        | none => geminiInternalMock "Failed to parse Gemini API JSON response"
        | some v => v

/-- The module-level rate-limit state of the route. -/
structure RateState where
  apiCallsInLastMinute : ℕ
  lastResetTime : ℤ
deriving DecidableEq

/-- The JSON payload of a route response; errorFlag is the error field of
the JSON body, and the moderationStatus attached to the verification object
is carried separately. -/
structure RouteResponse where
  httpStatus : ℕ
  status : String
  mockImplementation : Bool
  errorFlag : Bool
  verification : Option Verification
  moderationStatus : Option String
  mockReason : Option String
  rateLimit : Option (ℕ × ℤ)
deriving DecidableEq

/-- The userFriendlyReason classifier of provideMockResponse
(route lines 490-497). -/
def mockFriendlyReason (reason : String) : String :=
  if strIncludes reason "API key missing" || strIncludes reason "empty" then
    "API configuration issue"
  else if strIncludes reason "Rate limit" || strIncludes reason "429" ||
      strIncludes reason "quota" then
    "API rate limit reached"
  else if strIncludes reason "timeout" then
    "API request timed out - document may be too complex"
  else "API temporarily unavailable"

/-- Embedding of provideMockResponse (route lines 486-538).  The parameters
r1, r2 and r3 model the Math.random draws and now2 the Date.now call inside
the function. -/
def provideMockResponse (lastReset : ℤ) (callCount : ℕ) (reason : String)
    (metadata : List (String × String)) (r1 r2 r3 : ℚ) (now2 : ℤ) : RouteResponse :=
  let userFriendlyReason := mockFriendlyReason reason
  let isTimeout := strIncludes reason "timeout"
  let shouldFlag := if isTimeout then r1 < 0.05 else r1 < 0.2
  let mockAnalysis : Verification :=
    if shouldFlag then
      { isLikelyGenuine := false, isLikelyAiGenerated := r2 < 0.7,
        detectedAnomalies := ["Inconsistent text formatting",
          "Potential digital manipulation detected", "Unusual metadata patterns"],
        confidenceScore := 0.75 + r3 * 0.2,
        analysisExplanation := "This is a mock verification result. Reason: " ++
          userFriendlyReason ++
          ". The document contains some suspicious elements that warrant further review." }
    else
      { isLikelyGenuine := true, isLikelyAiGenerated := false,
        detectedAnomalies := [],
        confidenceScore := 0.85 + r3 * 0.15,
        analysisExplanation := "This is a mock verification result. Reason: " ++
          userFriendlyReason ++ ". Based on available metadata" ++
          (if 0 < metadata.length then " and document properties" else "") ++
          ", no suspicious elements were detected." }
  { httpStatus := 200, status := "success", mockImplementation := true,
    errorFlag := false, verification := some mockAnalysis,
    moderationStatus := some (if shouldFlag then "flagged" else "safe"),
    mockReason := some reason,
    rateLimit := some (callCount, 60000 - (now2 - lastReset)) }

/-- The fixed response returned when no image part is present in the form
data (route lines 364-383): a status-200 body with mockImplementation true,
the error flag set, and no rateLimit field. -/
def noImageResponse : RouteResponse :=
  { httpStatus := 200, status := "success", mockImplementation := true,
    errorFlag := true,
    verification := some
      ({ isLikelyGenuine := false, isLikelyAiGenerated := false,
         detectedAnomalies := ["No image provided"], confidenceScore := 0,
         analysisExplanation := "No image file was provided for verification." } :
        Verification),
    moderationStatus := some "flagged",
    mockReason := none, rateLimit := none }

/-- The image part of the multipart form: for a JSON part, optimizedPdf
carries the fileName and fileSize when the body parses as the optimized
representation of a large PDF. -/
structure ImagePart where
  name : String
  size : ℕ
  mimeType : String
  optimizedPdf : Option (String × ℕ)
deriving DecidableEq

/-- The decoded multipart form of a request. -/
structure ParsedForm where
  image : Option ImagePart
  features : List ℚ
  documentMetadata : List (String × String)
deriving DecidableEq

/-- Either the form data of the request, or an exception thrown while
reading the request body, which reaches the outer catch of the handler. -/
inductive FormResult where
  | fail (msg : String)
  | ok (form : ParsedForm)
deriving DecidableEq

/-- Lookup in the metadata record. -/
def alGet (m : List (String × String)) (k : String) : Option String :=
  (m.find? (fun p => p.1 == k)).map (fun p => p.2)

/-- Falsiness of a metadata entry: absent or the empty string. -/
def alFalsy (m : List (String × String)) (k : String) : Bool :=
  match alGet m k with
  | none => true
  | some v => v == ""

/-- Assignment in the metadata record. -/
def alSet (m : List (String × String)) (k v : String) : List (String × String) :=
  if (alGet m k).isSome then m.map (fun p => if p.1 == k then (k, v) else p)
  else m ++ [(k, v)]

/-- The optimized-PDF metadata enrichment of the route (lines 407-426):
when the image part is a JSON representation of a large PDF, the absent
file fields are filled in and the Optimized marker is set. -/
def enrichMetadata (m : List (String × String)) (img : ImagePart) :
    List (String × String) :=
  if img.mimeType = "application/json" then
    match img.optimizedPdf with
    | some (fn, fs) =>
      let m1 := if alFalsy m "File Name" then alSet m "File Name" fn else m
      let m2 := if alFalsy m1 "File Size" then alSet m1 "File Size" (fileSizeKB fs) else m1
      let m3 := if alFalsy m2 "File Type" then alSet m2 "File Type" "application/pdf" else m2
      alSet m3 "Optimized" "Yes - Large PDF file"
    | none => m
  else m

/-- The body of the POST handler after the rate-state update (route lines
351-480): API-key check, outer catch for body-reading exceptions, no-image
response, rate-limit check against the incremented counter, then the Gemini
analysis whose result is wrapped in the success response.  The Bool of the
result records whether generateContent on the hosted LLM was invoked. -/
def geminiPostCore (apiKeyPresent : Bool) (form : FormResult) (genAIInit : Bool)
    (llm : LlmOutcome) (jsonParse : String → Option Verification)
    (r1 r2 r3 : ℚ) (now2 now lastReset : ℤ) (calls : ℕ) : RouteResponse × Bool :=
  if ¬apiKeyPresent then
    (provideMockResponse lastReset calls "API key missing" [] r1 r2 r3 now2, false)
  else
    match form with
    | .fail msg => (provideMockResponse lastReset calls msg [] r1 r2 r3 now2, false)
    | .ok f =>
      match f.image with
      | none => (noImageResponse, false)
      | some img =>
        let docMeta := enrichMetadata f.documentMetadata img
        if 10 < calls then
          (provideMockResponse lastReset calls "Rate limit exceeded" docMeta r1 r2 r3 now2,
           false)
        else
          let v := analyzeWithGemini genAIInit llm jsonParse
          let called := genAIInit &&
            (match llm with | .modelCreateFail => false | _ => true)
          ({ httpStatus := 200, status := "success", mockImplementation := false,
             errorFlag := false, verification := some v,
             moderationStatus := some (if v.isLikelyGenuine then "safe" else "flagged"),
             mockReason := none,
             rateLimit := some (calls, 60000 - (now - lastReset)) }, called)

/-- The handler result: the updated module-level rate state, the JSON
response, and whether the hosted LLM was called. -/
structure PostResult where
  state : RateState
  response : RouteResponse
  llmCalled : Bool
deriving DecidableEq

/-- Embedding of the POST handler of the gemini-verification route (lines
338-481): the counter resets when strictly more than 60000 ms have passed
since the last reset, is incremented, and the core handler runs with the
updated state. -/
def geminiPost (st : RateState) (now : ℤ) (apiKeyPresent : Bool) (form : FormResult)
    (genAIInit : Bool) (llm : LlmOutcome) (jsonParse : String → Option Verification)
    (r1 r2 r3 : ℚ) (now2 : ℤ) : PostResult :=
  let reset := 60000 < now - st.lastResetTime
  let lastReset := if reset then now else st.lastResetTime
  let calls := (if reset then 0 else st.apiCallsInLastMinute) + 1
  let rc := geminiPostCore apiKeyPresent form genAIInit llm jsonParse r1 r2 r3
    now2 now lastReset calls
  { state := { apiCallsInLastMinute := calls, lastResetTime := lastReset },
    response := rc.1, llmCalled := rc.2 }

/-- A user document fetched from Firestore: the fetch threw, the document
has no data, or it carries an isAdmin field (none models an absent or
non-boolean field). -/
inductive FirestoreDoc where
  | fetchError
  | noData
  | data (isAdmin : Option Bool)
deriving DecidableEq

/-- The external services of the admin routes: token verification (none
models a thrown verification error), the users collection, and existence of
an auth user record. -/
structure AdminEnv where
  verifyIdToken : String → Option String
  userDoc : String → FirestoreDoc
  authUserExists : String → Bool

/-- Embedding of the isAdmin helper of the admin routes: the document data
is read and compared strictly against true, and every fetch error yields
false. -/
def isAdminCheck (env : AdminEnv) (uid : String) : Bool :=
  match env.userDoc uid with
  | .data (some true) => true
  | _ => false

/-- Characters of the second element of authHeader.split of the Bearer
marker: everything after the leading marker up to its next occurrence. -/
def takeUntilBearer : List Char → List Char
  | [] => []
  | c :: rest =>
    if "Bearer ".toList.isPrefixOf (c :: rest) then []
    else c :: takeUntilBearer rest

/-- The token extraction authHeader.split second element, for a header that
starts with the Bearer marker. -/
def splitBearerSecond (h : String) : String :=
  String.mk (takeUntilBearer (h.toList.drop 7))

/-- Status code of an admin route response together with whether the
privileged operation (listing users, or the Firestore write granting admin)
was performed. -/
structure AdminResult where
  status : ℕ
  performedPrivileged : Bool
deriving DecidableEq

/-- Embedding of the GET handler of the admin users route
(src/app/api/admin/users/route.ts lines 16-69): 401 without a Bearer
authorization header, 500 when token verification throws, 403 when the
caller is not an admin, and otherwise the user listing is performed. -/
def adminUsersGet (env : AdminEnv) (authHeader : Option String) : AdminResult :=
  match authHeader with
  | none => { status := 401, performedPrivileged := false }
  | some h =>
    if ¬(strHasPre "Bearer " h) then { status := 401, performedPrivileged := false }
    else
      match env.verifyIdToken (splitBearerSecond h) with
      | none => { status := 500, performedPrivileged := false }
      | some uid =>
        if ¬(isAdminCheck env uid) then { status := 403, performedPrivileged := false }
        else { status := 200, performedPrivileged := true }

/-- The parsed body of the make-admin request: reading it threw, or it
carries an optional targetUserId. -/
inductive BodyResult where
  | parseFail
  | parsed (targetUserId : Option String)
deriving DecidableEq

/-- Embedding of the POST handler of the make-admin route
(src/app/api/admin/make-admin/route.ts lines 16-67): the same
authentication and authorization gates, then 400 for a falsy targetUserId,
404 when the target auth user does not exist, and otherwise the Firestore
write granting admin is performed. -/
def makeAdminPost (env : AdminEnv) (authHeader : Option String)
    (body : BodyResult) : AdminResult :=
  match authHeader with
  | none => { status := 401, performedPrivileged := false }
  | some h =>
    if ¬(strHasPre "Bearer " h) then { status := 401, performedPrivileged := false }
    else
      match env.verifyIdToken (splitBearerSecond h) with
      | none => { status := 500, performedPrivileged := false }
      | some uid =>
        if ¬(isAdminCheck env uid) then { status := 403, performedPrivileged := false }
        else
          match body with
          | .parseFail => { status := 500, performedPrivileged := false }
          | .parsed none => { status := 400, performedPrivileged := false }
          | .parsed (some tid) =>
            if tid = "" then { status := 400, performedPrivileged := false }
            else if ¬(env.authUserExists tid) then
              { status := 404, performedPrivileged := false }
            else { status := 200, performedPrivileged := true }

/-- The five pipeline steps the specification names for an uploaded image. -/
inductive PipeStep where
  | classifyImage
  | runOcr
  | buildPrompt
  | callLLM
  | patternMatchReply
deriving DecidableEq

/-- Step performed by the client extractTextFromImage call at
DocumentUploader.tsx line 336, the first operation of the image branch of
handleFileUpload. -/
def clientOcrSteps : List PipeStep :=
  [PipeStep.runOcr]

/-- Steps performed by extractImageFeatures inside the client
analyzeWithGemini (lines 171-176): the MobileNet classification runs only
when the model is loaded and the file is an image. -/
def clientClassifySteps (modelLoadedAndImage : Bool) : List PipeStep :=
  if modelLoadedAndImage then [PipeStep.classifyImage] else []

/-- Steps performed by the gemini-verification route on the analysis path:
prompt construction (createOptimizedPrompt), the generateContent call on the
hosted model, and the regex match with JSON.parse on the reply (route lines
261-308). -/
def serverVerificationSteps : List PipeStep :=
  [PipeStep.buildPrompt, PipeStep.callLLM, PipeStep.patternMatchReply]

/-- Steps of the client analyzeWithGemini call (DocumentUploader.tsx lines
154-215): feature extraction, then the fetch that triggers the server
steps. -/
def clientAnalyzeSteps (modelLoaded isImage : Bool) : List PipeStep :=
  clientClassifySteps (modelLoaded && isImage) ++ serverVerificationSteps

/-- The verification pipeline executed for an uploaded image file by
handleFileUpload (lines 331-383): the OCR extraction first, then the client
analyzeWithGemini call. -/
def imageUploadPipeline (modelLoaded : Bool) : List PipeStep :=
  clientOcrSteps ++ clientAnalyzeSteps modelLoaded true

/-- A concrete verification object used by the C5 witness. -/
def vDemo : Verification :=
  { isLikelyGenuine := true, isLikelyAiGenerated := false, detectedAnomalies := [],
    confidenceScore := 1, analysisExplanation := "ok" }

/-- A well-formed PDF with complete non-AI metadata, triggering none of the
verification flags. -/
def pdfCleanFile : JsFile :=
  { name := "report.pdf", size := 20000, mimeType := "application/pdf",
    content := "%PDF-1.4 /Title (Annual Report) /Author (John) /Creator (Word) /Producer (Word)",
    lastModified := 0 }

/-- A Word document whose declared docx extension does not match its
declared MIME type. -/
def docxMismatchFile : JsFile :=
  { name := "file.docx", size := 20000, mimeType := "application/msword",
    content := "data", lastModified := 0 }

/-- A PDF whose Creator field is an AI term but whose Producer value makes
decodeURIComponent throw: the backslash escape ff rewrites to a percent
escape that is not valid UTF-8. -/
def pdfAiCreatorFile : JsFile :=
  { name := "c.pdf", size := 20000, mimeType := "application/pdf",
    content := "%PDF-1.4 /Title (T) /Author (A) /Creator (GPT) /Producer (\\ff)",
    lastModified := 0 }

/-- A PDF whose Creator field is an AI term and whose other fields decode
normally. -/
def pdfAiOkFile : JsFile :=
  { name := "c2.pdf", size := 20000, mimeType := "application/pdf",
    content := "%PDF-1.4 /Title (T) /Author (A) /Creator (GPT) /Producer (Word)",
    lastModified := 0 }

/-- A plain PDF used by the C7 witness. -/
def pdfPlainFile : JsFile :=
  { name := "w.pdf", size := 20000, mimeType := "application/pdf",
    content := "%PDF-1.4 /Title (T) /Author (A) /Creator (C) /Producer (P)",
    lastModified := 0 }

/-- The failure modes of the route analysis named by the specification: the
client is uninitialized, model creation failed, the API call failed or
timed out, reading the reply failed, or the reply carries no parseable JSON
block. -/
def analysisFailure (genInit : Bool) (llm : LlmOutcome)
    (jp : String → Option Verification) : Prop :=
  genInit = false ∨ llm = LlmOutcome.modelCreateFail ∨
  (∃ m, llm = LlmOutcome.callFail m) ∨ llm = LlmOutcome.timeout ∨
  llm = LlmOutcome.responseTextFail ∨
  (∃ t, llm = LlmOutcome.reply t ∧ (extractJsonBlock t = none ∨
    (∃ b, extractJsonBlock t = some b ∧ jp b = none)))

/-- A malformed authorization header: absent, or not a Bearer header. -/
def badAuthHeader (h : Option String) : Prop :=
  match h with
  | none => True
  | some hdr => strHasPre "Bearer " hdr = false

/-- A concrete admin environment for the C9 witness: one verifiable token
whose user is recorded as a non-admin. -/
def envDemo : AdminEnv :=
  { verifyIdToken := fun t => if t = "tok" then some "u1" else none,
    userDoc := fun _ => FirestoreDoc.data (some false),
    authUserExists := fun _ => false }

/-- The clamp used by the uploader scores lies in the closed interval from
0.1 to 1. -/
theorem clampScoreBounds (x : ℚ) :
    (0.1 : ℚ) ≤ max 0.1 (min 1 x) ∧ max 0.1 (min 1 x) ≤ 1 :=
  ⟨le_max_left _ _, max_le (by norm_num) (min_le_left _ _)⟩

/-- A list is a Boolean prefix of itself extended by anything. -/
theorem isPrefixOfAppendRight (p : List Char) :
    ∀ s t : List Char, p.isPrefixOf s = true → p.isPrefixOf (s ++ t) = true := by
  induction p with
  | nil => intro s t _; simp [List.isPrefixOf]
  | cons a p ih =>
    intro s t h
    cases s with
    | nil => simp [List.isPrefixOf] at h
    | cons b s =>
      simp only [List.isPrefixOf, Bool.and_eq_true, beq_iff_eq] at h ⊢
      exact ⟨h.1, ih s t h.2⟩

/-- Appending to a string preserves a prefix. -/
theorem strHasPreAppendRight (p s t : String) (h : strHasPre p s = true) :
    strHasPre p (s ++ t) = true :=
  isPrefixOfAppendRight p.toList s.toList t.toList h

/-- Every internal mock of the route analysis carries the mock explanation
prefix. -/
theorem geminiInternalMockIsMock (msg : String) :
    strHasPre "This is a mock verification result."
      (geminiInternalMock msg).analysisExplanation = true := by
  unfold geminiInternalMock
  exact strHasPreAppendRight _ _ _ (by decide)

/-- C10: The uploader extractTextFromImage never rejects: every input file
resolves to a text-and-confidence pair.  PDFs get the fixed placeholder with
confidence 0.5, any OCR or image-load failure yields the fallback message
with confidence 0, and an OCR result whose cleaned text has fewer than 5
characters with confidence below 0.3 yields the fixed no-meaningful-text
message with confidence 0.1; otherwise the cleaned text and scaled
confidence are returned. -/
theorem ocrNeverRejects (fileType : String) (oc : OcrOutcome) :
    (fileType = "application/pdf" →
      extractTextFromImage fileType oc =
        ("PDF text extraction requires server-side processing.", 0.5)) ∧
    (fileType ≠ "application/pdf" →
      (oc = OcrOutcome.loadFail ∨ oc = OcrOutcome.recognizeFail) →
      extractTextFromImage fileType oc =
        ("Text extraction failed. The document may be encrypted, damaged, or in an unsupported format.", 0)) ∧
    (∀ text conf, fileType ≠ "application/pdf" → oc = OcrOutcome.ok text conf →
      (cleanOcrText text).length < 5 → conf / 100 < 0.3 →
      extractTextFromImage fileType oc =
        ("No meaningful text could be extracted from this document.", 0.1)) ∧
    (∀ text conf, fileType ≠ "application/pdf" → oc = OcrOutcome.ok text conf →
      ¬((cleanOcrText text).length < 5 ∧ conf / 100 < 0.3) →
      extractTextFromImage fileType oc = (cleanOcrText text, conf / 100)) := by
  refine ⟨?_, ?_, ?_, ?_⟩
  · intro h
    simp [extractTextFromImage, h]
  · intro h hc
    rcases hc with rfl | rfl <;> simp [extractTextFromImage, h]
  · rintro text conf h rfl hl hc
    simp [extractTextFromImage, h, hl, hc]
  · rintro text conf h rfl hn
    simp only [extractTextFromImage, if_neg h]
    rw [if_neg hn]

/-- Witness for C10 at a concrete image and OCR outcome. -/
theorem ocrNeverRejectsWitness :
    extractTextFromImage "image/png" (OcrOutcome.ok "  hi   there " 80) =
      (cleanOcrText "  hi   there ", 80 / 100) :=
  (ocrNeverRejects "image/png" (OcrOutcome.ok "  hi   there " 80)).2.2.2
    "  hi   there " 80 (by decide) rfl
    (fun h => absurd h.1 (by decide))

/-- C8: Every confidence score produced by the uploader document
verification, both the PDF metadata analysis and the generic document
fall-back path, lies in the closed interval from 0.1 to 1. -/
theorem confidenceScoreClamped (readFails pdfFails : Bool) (file : JsFile)
    (extractedText : String) (tc : ℚ) :
    ((0.1 : ℚ) ≤ (extractPdfMetadata readFails file).confidenceScore ∧
      (extractPdfMetadata readFails file).confidenceScore ≤ 1) ∧
    ((0.1 : ℚ) ≤
        (documentVerification file readFails pdfFails extractedText tc).confidenceScore ∧
      (documentVerification file readFails pdfFails extractedText tc).confidenceScore ≤ 1) := by
  constructor
  · unfold extractPdfMetadata
    split
    · constructor <;> norm_num
    · exact clampScoreBounds _
  · unfold documentVerification
    exact clampScoreBounds _

/-- C1 counterexample: for an uploaded image with the classification model
loaded, the executed pipeline order differs from the claimed order that
classifies before running OCR. -/
theorem pipelineOrderCounterexample :
    imageUploadPipeline true ≠
      [PipeStep.classifyImage, PipeStep.runOcr, PipeStep.buildPrompt,
       PipeStep.callLLM, PipeStep.patternMatchReply] := by
  decide

/-- C1 (amended): for an uploaded image with the classification model
loaded, the pipeline is the linear sequence OCR first, then in-browser
classification, then prompt construction, the hosted LLM call, and the
pattern match of the reply. -/
theorem pipelineOrderActual :
    imageUploadPipeline true =
      [PipeStep.runOcr, PipeStep.classifyImage, PipeStep.buildPrompt,
       PipeStep.callLLM, PipeStep.patternMatchReply] := by
  decide

/-- C5: The verdict is obtained from the LLM free-text reply by the greedy
brace regex and JSON.parse of the first match: when the regex finds no
match or the parse fails the analysis raises an error that the route file
converts into its mock fallback, and a parsed verification object is
returned verbatim, so the verdict depends entirely on the reply having that
shape. -/
theorem replyParsingShape (jsonParse : String → Option Verification) (text : String) :
    (extractJsonBlock text = none →
      analyzeWithGemini true (LlmOutcome.reply text) jsonParse =
        geminiInternalMock "Failed to parse Gemini API response") ∧
    (∀ block, extractJsonBlock text = some block → jsonParse block = none →
      analyzeWithGemini true (LlmOutcome.reply text) jsonParse =
        geminiInternalMock "Failed to parse Gemini API JSON response") ∧
    (∀ block v, extractJsonBlock text = some block → jsonParse block = some v →
      analyzeWithGemini true (LlmOutcome.reply text) jsonParse = v) ∧
    (geminiInternalMock "Failed to parse Gemini API response").analysisExplanation =
      "This is a mock verification result. Reason: API connection issue" := by
  refine ⟨?_, ?_, ?_, by decide⟩
  · intro h
    simp [analyzeWithGemini, h]
  · intro block hb hp
    simp [analyzeWithGemini, hb, hp]
  · intro block v hb hp
    simp [analyzeWithGemini, hb, hp]

/-- Witness for C5 at a concrete reply and parser. -/
theorem replyParsingShapeWitness :
    analyzeWithGemini true (LlmOutcome.reply "a\x7bb\x7dc") (fun _ => some vDemo) =
      vDemo :=
  (replyParsingShape (fun _ => some vDemo) "a\x7bb\x7dc").2.2.1 "\x7bb\x7d" vDemo
    (by decide) rfl

/-- Closed form of the PDF metadata confidence score: the clamp of 0.95
minus the per-flag penalties and the content-analysis penalty. -/
theorem extractPdfMetadataScore (file : JsFile) :
    (extractPdfMetadata false file).confidenceScore =
      max 0.1 (min 1 ((0.95
        - (if pdfSmallFlag file then 0.2 else 0)
        - (if !pdfHeaderOK file then 0.5 else 0)
        - (if !pdfTypeOK file then 0.3 else 0)
        - (if pdfNameFlag file then 0.2 else 0))
        - (if pdfHeaderOK file then (pdfContentAnalysis file.content).2.2 else 0))) := by
  cases h : pdfHeaderOK file <;> simp [extractPdfMetadata, h]

/-- Closed form of the PDF metadata anomaly list: the header-check anomalies
followed by the content-analysis anomalies. -/
theorem extractPdfMetadataAnomalies (file : JsFile) :
    (extractPdfMetadata false file).anomalies =
      ((if pdfSmallFlag file then ["Unusually small file size for a PDF"] else []) ++
       (if !pdfHeaderOK file then ["File does not have a valid PDF header"] else []) ++
       (if !pdfTypeOK file then ["File does not have the correct PDF MIME type"] else []) ++
       (if pdfNameFlag file then ["Document has a potentially suspicious filename"] else [])) ++
      (if pdfHeaderOK file then (pdfContentAnalysis file.content).2.1 else []) := by
  cases h : pdfHeaderOK file <;> simp [extractPdfMetadata, h]

/-- When no metadata field extraction throws, the content analysis reaches
the pattern checks and its anomalies and penalty take their closed forms. -/
theorem pdfContentAnalysisParts (content : String)
    (ht : extractField content "/Title" ≠ FieldRes.thrown)
    (ha : extractField content "/Author" ≠ FieldRes.thrown)
    (hc : extractField content "/Creator" ≠ FieldRes.thrown)
    (hp : extractField content "/Producer" ≠ FieldRes.thrown) :
    (pdfContentAnalysis content).2.1 =
      (if pdfCreatorSusp content then ["Document creator suggests AI generation"] else []) ++
      (if pdfProducerSusp content then ["Document producer suggests AI generation"] else []) ++
      (if pdfMissingMetaFlag content then
        ["Document is missing most standard metadata fields"] else []) ∧
    (pdfContentAnalysis content).2.2 =
      (if pdfCreatorSusp content then 0.3 else 0) +
      (if pdfProducerSusp content then 0.3 else 0) +
      (if pdfMissingMetaFlag content then 0.2 else 0) := by
  constructor <;> simp [pdfContentAnalysis, ht, ha, hc, hp]

/-- Closed form of the document fall-back score on the generic
(non-PDF) path. -/
theorem documentVerificationScoreGeneric (file : JsFile) (readFails : Bool)
    (et : String) (tc : ℚ) (h : pdfTypeOK file = false) :
    (documentVerification file readFails false et tc).confidenceScore =
      max 0.1 (min 1 (0.9
        - (if docSmallFlag file then 0.3 else 0)
        - (if docNameFlag file then 0.2 else 0)
        - (if docTypeMismatchFlag file then 0.4 else 0))) := by
  simp [documentVerification, h]

/-- Closed form of the document fall-back score on the PDF path with
nonempty extracted text. -/
theorem documentVerificationScorePdf (file : JsFile) (readFails : Bool)
    (et : String) (tc : ℚ) (h : pdfTypeOK file = true) (hne : ¬(et = "")) :
    (documentVerification file readFails false et tc).confidenceScore =
      max 0.1 (min 1 ((extractPdfMetadata readFails file).confidenceScore -
        ocrTextPenalty et)) := by
  simp [documentVerification, h, hne]

/-- Closed form of the document fall-back anomalies on the PDF path with
nonempty extracted text. -/
theorem documentVerificationAnomaliesPdf (file : JsFile) (readFails : Bool)
    (et : String) (tc : ℚ) (h : pdfTypeOK file = true) (hne : ¬(et = "")) :
    (documentVerification file readFails false et tc).detectedAnomalies =
      (extractPdfMetadata readFails file).anomalies ++ ocrTextAnomalies et := by
  simp [documentVerification, h, hne]

/-- A failure of the PDF processing pipeline fixes the fall-back score
at 0.7. -/
theorem documentVerificationScorePdfFail (file : JsFile) (readFails : Bool)
    (et : String) (tc : ℚ) (h : pdfTypeOK file = true) :
    (documentVerification file readFails true et tc).confidenceScore = 0.7 := by
  simp [documentVerification, h]
  norm_num [max_def, min_def]

/-- The sum of three flag penalties equals the sum of a list whose members
are among the three constants. -/
theorem penaltyListOfFlags3 (a b c : Bool) (x y z : ℚ) :
    ∃ l : List ℚ, (∀ w ∈ l, w = x ∨ w = y ∨ w = z) ∧
      ((if a then x else 0) + (if b then y else 0) + (if c then z else 0)) = l.sum := by
  refine ⟨(if a then [x] else []) ++ (if b then [y] else []) ++
    (if c then [z] else []), ?_, ?_⟩
  · intro w hw
    rcases a <;> rcases b <;> rcases c <;> simp_all <;> tauto
  · rcases a <;> rcases b <;> rcases c <;> simp <;> ring

/-- The content-analysis penalty is a sum of penalties among 0.3 and 0.2. -/
theorem pdfContentPenaltySum (content : String) :
    ∃ l : List ℚ, (∀ w ∈ l, w = 0.3 ∨ w = 0.2) ∧
      (pdfContentAnalysis content).2.2 = l.sum := by
  by_cases h1 : extractField content "/Title" = FieldRes.thrown
  · exact ⟨[], by simp, by simp [pdfContentAnalysis, h1]⟩
  by_cases h2 : extractField content "/Author" = FieldRes.thrown
  · exact ⟨[], by simp, by simp [pdfContentAnalysis, h1, h2]⟩
  by_cases h3 : extractField content "/Creator" = FieldRes.thrown
  · exact ⟨[], by simp, by simp [pdfContentAnalysis, h1, h2, h3]⟩
  by_cases h4 : extractField content "/Producer" = FieldRes.thrown
  · exact ⟨[], by simp, by simp [pdfContentAnalysis, h1, h2, h3, h4]⟩
  · obtain ⟨l, hmem, hsum⟩ := penaltyListOfFlags3 (pdfCreatorSusp content)
      (pdfProducerSusp content) (pdfMissingMetaFlag content) 0.3 0.3 0.2
    refine ⟨l, ?_, ?_⟩
    · intro w hw
      rcases hmem w hw with h | h | h <;> simp [h]
    · rw [(pdfContentAnalysisParts content h1 h2 h3 h4).2, hsum]

/-- The PDF metadata confidence score is the clamp of 0.95 minus a sum of
penalties drawn from 0.2, 0.3 and 0.5. -/
theorem pdfScorePenaltyList (file : JsFile) :
    ∃ l : List ℚ, (∀ w ∈ l, w = 0.2 ∨ w = 0.3 ∨ w = 0.5) ∧
      (extractPdfMetadata false file).confidenceScore =
        max 0.1 (min 1 (0.95 - l.sum)) := by
  obtain ⟨lc, hmem, hsum⟩ := pdfContentPenaltySum file.content
  rw [extractPdfMetadataScore]
  refine ⟨(if pdfSmallFlag file then [0.2] else []) ++
    (if !pdfHeaderOK file then [0.5] else []) ++
    (if !pdfTypeOK file then [0.3] else []) ++
    (if pdfNameFlag file then [0.2] else []) ++
    (if pdfHeaderOK file then lc else []), ?_, ?_⟩
  · intro w hw
    simp only [List.mem_append] at hw
    rcases hw with ((((hw | hw) | hw) | hw) | hw)
    · rcases h : pdfSmallFlag file <;> simp_all
    · rcases h : pdfHeaderOK file <;> simp_all
    · rcases h : pdfTypeOK file <;> simp_all
    · rcases h : pdfNameFlag file <;> simp_all
    · rcases h : pdfHeaderOK file <;> simp_all
      rcases hmem w hw with h | h <;> simp [h]
  · congr 1
    congr 1
    rcases pdfSmallFlag file <;> rcases pdfHeaderOK file <;> rcases pdfTypeOK file <;>
      rcases pdfNameFlag file <;> simp [hsum] <;> ring

/-- The generic-document fall-back score is the clamp of 0.9 minus a sum of
penalties drawn from 0.2, 0.3 and 0.4. -/
theorem docScorePenaltyList (file : JsFile) (et : String) (tc : ℚ)
    (h : pdfTypeOK file = false) :
    ∃ l : List ℚ, (∀ w ∈ l, w = 0.2 ∨ w = 0.3 ∨ w = 0.4) ∧
      (documentVerification file false false et tc).confidenceScore =
        max 0.1 (min 1 (0.9 - l.sum)) := by
  rw [documentVerificationScoreGeneric file false et tc h]
  refine ⟨(if docSmallFlag file then [0.3] else []) ++
    (if docNameFlag file then [0.2] else []) ++
    (if docTypeMismatchFlag file then [0.4] else []), ?_, ?_⟩
  · intro w hw
    simp only [List.mem_append] at hw
    rcases hw with ((hw | hw) | hw)
    · rcases docSmallFlag file <;> simp_all
    · rcases docNameFlag file <;> simp_all
    · rcases docTypeMismatchFlag file <;> simp_all
  · congr 1
    congr 1
    rcases docSmallFlag file <;> rcases docNameFlag file <;>
      rcases docTypeMismatchFlag file <;> simp <;> ring

/-- C3 counterexample: a clean PDF triggers no flag yet, its confidence
score is 0.95 rather than 0.9, and the extension-mismatch flag of the
generic document path subtracts 0.4, which is neither 0.2 nor 0.3. -/
theorem scoringConstantsCounterexample :
    ((documentVerification pdfCleanFile false false
        "PDF text extraction requires server-side processing." 0.5).detectedAnomalies = [] ∧
      (documentVerification pdfCleanFile false false
        "PDF text extraction requires server-side processing." 0.5).confidenceScore = 0.95) ∧
    ((documentVerification docxMismatchFile false false "" 0).detectedAnomalies =
        ["File extension doesn\u0027t match the actual file type"] ∧
      (documentVerification docxMismatchFile false false "" 0).confidenceScore = 0.5) ∧
    (0.95 : ℚ) ≠ 0.9 ∧ (0.5 : ℚ) ≠ 0.9 - 0.2 ∧ (0.5 : ℚ) ≠ 0.9 - 0.3 := by
  refine ⟨⟨by decide, ?_⟩, ⟨by decide, ?_⟩, by norm_num, by norm_num, by norm_num⟩
  · rw [documentVerificationScorePdf pdfCleanFile false
      "PDF text extraction requires server-side processing." 0.5 (by decide) (by decide)]
    rw [extractPdfMetadataScore]
    rw [(by decide : pdfSmallFlag pdfCleanFile = false),
      (by decide : pdfHeaderOK pdfCleanFile = true),
      (by decide : pdfTypeOK pdfCleanFile = true),
      (by decide : pdfNameFlag pdfCleanFile = false)]
    rw [(pdfContentAnalysisParts pdfCleanFile.content (by decide) (by decide)
      (by decide) (by decide)).2]
    rw [(by decide : pdfCreatorSusp pdfCleanFile.content = false),
      (by decide : pdfProducerSusp pdfCleanFile.content = false),
      (by decide : pdfMissingMetaFlag pdfCleanFile.content = false)]
    simp only [ocrTextPenalty,
      (by decide : suspiciousTermsTest "PDF text extraction requires server-side processing." = false),
      (by decide : notValidTest "PDF text extraction requires server-side processing." = false)]
    norm_num [max_def, min_def]
  · rw [documentVerificationScoreGeneric docxMismatchFile false "" 0 (by decide)]
    rw [(by decide : docSmallFlag docxMismatchFile = false),
      (by decide : docNameFlag docxMismatchFile = false),
      (by decide : docTypeMismatchFlag docxMismatchFile = true)]
    norm_num [max_def, min_def]

/-- C3 (amended): the uploader document scores start at 0.95 in the PDF
metadata analysis with flag penalties among 0.2, 0.3 and 0.5, at 0.9 on the
generic document path with flag penalties among 0.2, 0.3 and 0.4; a PDF
pipeline failure fixes the score at 0.7 and a file-read failure at 0.5. -/
theorem scoringConstantsActual (file : JsFile) (et : String) (tc : ℚ) :
    (∃ l : List ℚ, (∀ w ∈ l, w = 0.2 ∨ w = 0.3 ∨ w = 0.5) ∧
      (extractPdfMetadata false file).confidenceScore =
        max 0.1 (min 1 (0.95 - l.sum))) ∧
    (pdfTypeOK file = false →
      ∃ l : List ℚ, (∀ w ∈ l, w = 0.2 ∨ w = 0.3 ∨ w = 0.4) ∧
        (documentVerification file false false et tc).confidenceScore =
          max 0.1 (min 1 (0.9 - l.sum))) ∧
    (pdfTypeOK file = true →
      (documentVerification file false true et tc).confidenceScore = 0.7) ∧
    (extractPdfMetadata true file).confidenceScore = 0.5 := by
  refine ⟨pdfScorePenaltyList file, fun h => docScorePenaltyList file et tc h,
    fun h => documentVerificationScorePdfFail file false et tc h, ?_⟩
  simp [extractPdfMetadata]

/-- Witness for C3 (amended) at a concrete PDF with a failed pipeline. -/
theorem scoringConstantsActualWitness :
    (documentVerification pdfCleanFile false true "" 0).confidenceScore = 0.7 :=
  (scoringConstantsActual pdfCleanFile "" 0).2.2.1 (by decide)

/-- C6 counterexample: the Creator metadata field is extracted and stored as
GPT, one of the suspicious terms, yet because the Producer decode throws
afterwards the whole pattern-check block is skipped: no anomaly is recorded
and nothing is subtracted from the confidence score. -/
theorem aiMetadataCheckCounterexample :
    alGet (extractPdfMetadata false pdfAiCreatorFile).metadata "Creator" = some "GPT" ∧
    "GPT" ∈ suspiciousAITerms ∧
    strIncludes "GPT" "GPT" = true ∧
    "Document creator suggests AI generation" ∉
      (extractPdfMetadata false pdfAiCreatorFile).anomalies ∧
    (extractPdfMetadata false pdfAiCreatorFile).confidenceScore = 0.95 := by
  refine ⟨by decide, by decide, by decide, by decide, ?_⟩
  rw [extractPdfMetadataScore]
  rw [(by decide : pdfSmallFlag pdfAiCreatorFile = false),
    (by decide : pdfHeaderOK pdfAiCreatorFile = true),
    (by decide : pdfTypeOK pdfAiCreatorFile = true),
    (by decide : pdfNameFlag pdfAiCreatorFile = false)]
  have hpen : (pdfContentAnalysis pdfAiCreatorFile.content).2.2 = 0 := by
    simp [pdfContentAnalysis,
      (by decide : ¬(extractField pdfAiCreatorFile.content "/Title" = FieldRes.thrown)),
      (by decide : ¬(extractField pdfAiCreatorFile.content "/Author" = FieldRes.thrown)),
      (by decide : ¬(extractField pdfAiCreatorFile.content "/Creator" = FieldRes.thrown)),
      (by decide : extractField pdfAiCreatorFile.content "/Producer" = FieldRes.thrown)]
  rw [hpen]
  norm_num [max_def, min_def]

/-- C6 (amended): when the header is valid and all four metadata field
extractions complete without a decode error, a Creator or Producer value
containing a suspicious term records the corresponding anomaly, and each
matching field contributes a 0.3 subtraction in the closed form of the
confidence score. -/
theorem aiMetadataChecksAmended (file : JsFile)
    (hH : pdfHeaderOK file = true)
    (ht : extractField file.content "/Title" ≠ FieldRes.thrown)
    (ha : extractField file.content "/Author" ≠ FieldRes.thrown)
    (hc : extractField file.content "/Creator" ≠ FieldRes.thrown)
    (hp : extractField file.content "/Producer" ≠ FieldRes.thrown) :
    (pdfCreatorSusp file.content = true →
      "Document creator suggests AI generation" ∈
        (extractPdfMetadata false file).anomalies) ∧
    (pdfProducerSusp file.content = true →
      "Document producer suggests AI generation" ∈
        (extractPdfMetadata false file).anomalies) ∧
    (extractPdfMetadata false file).confidenceScore =
      max 0.1 (min 1 (0.95
        - (if pdfSmallFlag file then 0.2 else 0)
        - (if !pdfTypeOK file then 0.3 else 0)
        - (if pdfNameFlag file then 0.2 else 0)
        - (if pdfCreatorSusp file.content then 0.3 else 0)
        - (if pdfProducerSusp file.content then 0.3 else 0)
        - (if pdfMissingMetaFlag file.content then 0.2 else 0))) := by
  obtain ⟨hanoms, hpen⟩ := pdfContentAnalysisParts file.content ht ha hc hp
  refine ⟨?_, ?_, ?_⟩
  · intro h
    rw [extractPdfMetadataAnomalies, hH]
    simp only [if_pos rfl, hanoms, h]
    simp
  · intro h
    rw [extractPdfMetadataAnomalies, hH]
    simp only [if_pos rfl, hanoms, h]
    simp
  · rw [extractPdfMetadataScore, hH, hpen]
    congr 1
    congr 1
    rcases pdfSmallFlag file <;> rcases pdfTypeOK file <;> rcases pdfNameFlag file <;>
      rcases pdfCreatorSusp file.content <;> rcases pdfProducerSusp file.content <;>
      rcases pdfMissingMetaFlag file.content <;> simp <;> ring

/-- Witness for C6 (amended) at a PDF whose Creator value contains GPT. -/
theorem aiMetadataChecksAmendedWitness :
    "Document creator suggests AI generation" ∈
      (extractPdfMetadata false pdfAiOkFile).anomalies :=
  (aiMetadataChecksAmended pdfAiOkFile (by decide) (by decide) (by decide)
    (by decide) (by decide)).1 (by decide)

/-- C7: For every OCR-extracted text matching the suspicious-terms regex or
the disclaimer regex, the corresponding fixed anomaly description is
recorded by the pattern loop, a fixed 0.2 penalty per matching pattern is
computed, and on the PDF fall-back path the descriptions reach the detected
anomalies with the penalty subtracted from the confidence score. -/
theorem ocrTextPatternChecks (text : String) :
    (suspiciousTermsTest text = true → ocrAnomalyTermsDesc ∈ ocrTextAnomalies text) ∧
    (notValidTest text = true → ocrAnomalyDisclaimerDesc ∈ ocrTextAnomalies text) ∧
    ocrTextPenalty text = 0.2 * ((if suspiciousTermsTest text then 1 else 0) +
      (if notValidTest text then 1 else 0)) ∧
    (∀ file : JsFile, ∀ tc : ℚ, pdfTypeOK file = true → ¬(text = "") →
      (∀ d ∈ ocrTextAnomalies text,
        d ∈ (documentVerification file false false text tc).detectedAnomalies) ∧
      (documentVerification file false false text tc).confidenceScore =
        max 0.1 (min 1 ((extractPdfMetadata false file).confidenceScore -
          ocrTextPenalty text))) := by
  refine ⟨?_, ?_, ?_, ?_⟩
  · intro h
    simp [ocrTextAnomalies, h]
  · intro h
    simp [ocrTextAnomalies, h]
  · rcases hs : suspiciousTermsTest text <;> rcases hn : notValidTest text <;>
      simp [ocrTextPenalty, hs, hn] <;> norm_num
  · intro file tc h hne
    refine ⟨?_, documentVerificationScorePdf file false text tc h hne⟩
    intro d hd
    rw [documentVerificationAnomaliesPdf file false text tc h hne]
    exact List.mem_append_right _ hd

/-- Witness for C7 at a text matching both patterns and a concrete PDF. -/
theorem ocrTextPatternChecksWitness :
    ocrAnomalyTermsDesc ∈ ocrTextAnomalies "specimen not valid" ∧
    ocrAnomalyDisclaimerDesc ∈ ocrTextAnomalies "specimen not valid" ∧
    ocrAnomalyTermsDesc ∈
      (documentVerification pdfPlainFile false false "specimen not valid"
        0.5).detectedAnomalies :=
  ⟨(ocrTextPatternChecks "specimen not valid").1 (by decide),
   (ocrTextPatternChecks "specimen not valid").2.1 (by decide),
   ((ocrTextPatternChecks "specimen not valid").2.2.2 pdfPlainFile 0.5 (by decide)
      (by decide)).1 ocrAnomalyTermsDesc
     ((ocrTextPatternChecks "specimen not valid").1 (by decide))⟩

/-- C2 counterexample: with the in-memory counter at 11, exceeding 10, a
POST carrying no image file returns a response marked mockImplementation
true but with no rateLimit information, so the mock does not carry the call
count and remaining reset time. -/
theorem rateLimitNoImageCounterexample :
    (geminiPost ⟨10, 0⟩ 1 true (FormResult.ok ⟨none, [], []⟩) true
      (LlmOutcome.reply "") (fun _ => none) 0 0 0 1).state.apiCallsInLastMinute = 11 ∧
    10 < 11 ∧
    (geminiPost ⟨10, 0⟩ 1 true (FormResult.ok ⟨none, [], []⟩) true
      (LlmOutcome.reply "") (fun _ => none) 0 0 0 1).response.mockImplementation = true ∧
    (geminiPost ⟨10, 0⟩ 1 true (FormResult.ok ⟨none, [], []⟩) true
      (LlmOutcome.reply "") (fun _ => none) 0 0 0 1).response.rateLimit = none := by
  refine ⟨by decide, by decide, by decide, by decide⟩

/-- C2 (amended): the counter resets when strictly more than 60000 ms have
passed since the last reset and is then incremented; whenever the updated
counter exceeds 10 the handler never calls the hosted LLM and returns a
response marked mockImplementation true, and unless the POST carries no
image file the response rateLimit carries the current call count and the
remaining reset time. -/
theorem rateLimitMockBehavior (st : RateState) (now : ℤ) (key : Bool)
    (form : FormResult) (genInit : Bool) (llm : LlmOutcome)
    (jp : String → Option Verification) (r1 r2 r3 : ℚ) (now2 : ℤ) :
    ((60000 < now - st.lastResetTime →
        (geminiPost st now key form genInit llm jp r1 r2 r3 now2).state.apiCallsInLastMinute = 1) ∧
     (¬(60000 < now - st.lastResetTime) →
        (geminiPost st now key form genInit llm jp r1 r2 r3 now2).state.apiCallsInLastMinute =
          st.apiCallsInLastMinute + 1)) ∧
    (10 < (geminiPost st now key form genInit llm jp r1 r2 r3 now2).state.apiCallsInLastMinute →
      (geminiPost st now key form genInit llm jp r1 r2 r3 now2).llmCalled = false ∧
      (geminiPost st now key form genInit llm jp r1 r2 r3 now2).response.mockImplementation = true ∧
      (∀ f img, form = FormResult.ok f → f.image = some img →
        (geminiPost st now key form genInit llm jp r1 r2 r3 now2).response.rateLimit =
          some ((geminiPost st now key form genInit llm jp r1 r2 r3 now2).state.apiCallsInLastMinute,
            60000 - (now2 - (geminiPost st now key form genInit llm jp r1 r2 r3 now2).state.lastResetTime))) ∧
      (∀ msg, form = FormResult.fail msg →
        (geminiPost st now key form genInit llm jp r1 r2 r3 now2).response.rateLimit =
          some ((geminiPost st now key form genInit llm jp r1 r2 r3 now2).state.apiCallsInLastMinute,
            60000 - (now2 - (geminiPost st now key form genInit llm jp r1 r2 r3 now2).state.lastResetTime)))) := by
  constructor
  · constructor
    · intro h
      simp [geminiPost, h]
    · intro h
      simp [geminiPost, h]
  · intro h
    have hcalls :
        (geminiPost st now key form genInit llm jp r1 r2 r3 now2).state.apiCallsInLastMinute =
          (if 60000 < now - st.lastResetTime then 0 else st.apiCallsInLastMinute) + 1 := by
      simp [geminiPost]
    rcases hk : key with _ | _
    · refine ⟨?_, ?_, ?_, ?_⟩ <;>
        simp [geminiPost, geminiPostCore, provideMockResponse]
    · rcases hf : form with msg | f
      · refine ⟨?_, ?_, ?_, ?_⟩ <;>
          simp [geminiPost, geminiPostCore, provideMockResponse]
      · rcases hi : f.image with _ | img
        · refine ⟨?_, ?_, ?_, ?_⟩
          · simp [geminiPost, geminiPostCore, hi, noImageResponse]
          · simp [geminiPost, geminiPostCore, hi, noImageResponse]
          · intro f' img' hff hfi
            cases hff
            rw [hi] at hfi
            exact absurd hfi (by simp)
          · intro msg hmsg
            cases hmsg
        · have h10 :
              10 < (if 60000 < now - st.lastResetTime then 0 else st.apiCallsInLastMinute) + 1 := by
            rw [hcalls] at h
            exact h
          refine ⟨?_, ?_, ?_, ?_⟩
          · simp [geminiPost, geminiPostCore, hi, h10, provideMockResponse]
          · simp [geminiPost, geminiPostCore, hi, h10, provideMockResponse]
          · intro f' img' hff hfi
            cases hff
            simp [geminiPost, geminiPostCore, hi, h10, provideMockResponse]
          · intro msg hmsg
            cases hmsg

/-- Witness for C2 (amended) at a concrete rate-limited request with an
image present. -/
theorem rateLimitMockBehaviorWitness :
    (geminiPost ⟨10, 0⟩ 1 true
        (FormResult.ok ⟨some ⟨"a.png", 100, "image/png", none⟩, [], []⟩) true
        (LlmOutcome.reply "") (fun _ => none) 0 0 0 5).response.rateLimit =
      some ((geminiPost ⟨10, 0⟩ 1 true
        (FormResult.ok ⟨some ⟨"a.png", 100, "image/png", none⟩, [], []⟩) true
        (LlmOutcome.reply "") (fun _ => none) 0 0 0 5).state.apiCallsInLastMinute,
        60000 - (5 - (geminiPost ⟨10, 0⟩ 1 true
          (FormResult.ok ⟨some ⟨"a.png", 100, "image/png", none⟩, [], []⟩) true
          (LlmOutcome.reply "") (fun _ => none) 0 0 0 5).state.lastResetTime)) :=
  ((rateLimitMockBehavior ⟨10, 0⟩ 1 true
      (FormResult.ok ⟨some ⟨"a.png", 100, "image/png", none⟩, [], []⟩) true
      (LlmOutcome.reply "") (fun _ => none) 0 0 0 5).2 (by decide)).2.2.1
    ⟨some ⟨"a.png", 100, "image/png", none⟩, [], []⟩ ⟨"a.png", 100, "image/png", none⟩
    rfl rfl

/-- Under any analysis failure the analyzeWithGemini result is the internal
mock, recognizable by its explanation prefix. -/
theorem analysisFailureGivesMock (genInit : Bool) (llm : LlmOutcome)
    (jp : String → Option Verification) (hfail : analysisFailure genInit llm jp) :
    strHasPre "This is a mock verification result."
      (analyzeWithGemini genInit llm jp).analysisExplanation = true := by
  rcases hfail with rfl | rfl | ⟨m, rfl⟩ | rfl | rfl | ⟨t, rfl, hparse⟩
  · simp [analyzeWithGemini, geminiInternalMockIsMock]
  · cases genInit <;> simp [analyzeWithGemini, geminiInternalMockIsMock]
  · cases genInit <;> simp [analyzeWithGemini, geminiInternalMockIsMock]
  · cases genInit <;> simp [analyzeWithGemini, geminiInternalMockIsMock]
  · cases genInit <;> simp [analyzeWithGemini, geminiInternalMockIsMock]
  · cases genInit
    · simp [analyzeWithGemini, geminiInternalMockIsMock]
    · rcases hparse with hnone | ⟨b, hb, hjp⟩
      · simp [analyzeWithGemini, hnone, geminiInternalMockIsMock]
      · simp [analyzeWithGemini, hb, hjp, geminiInternalMockIsMock]

/-- Every provideMockResponse body is a status-200 success carrying a mock
verification object recognizable by its explanation prefix. -/
theorem provideMockResponseIsMock (lastReset : ℤ) (callCount : ℕ) (reason : String)
    (metadata : List (String × String)) (r1 r2 r3 : ℚ) (now2 : ℤ) :
    (provideMockResponse lastReset callCount reason metadata r1 r2 r3 now2).httpStatus = 200 ∧
    (provideMockResponse lastReset callCount reason metadata r1 r2 r3 now2).status = "success" ∧
    (provideMockResponse lastReset callCount reason metadata r1 r2 r3 now2).errorFlag = false ∧
    ((provideMockResponse lastReset callCount reason metadata r1 r2 r3 now2).verification.any
      (fun v => strHasPre "This is a mock verification result." v.analysisExplanation)) = true := by
  refine ⟨rfl, rfl, rfl, ?_⟩
  have hbase : strHasPre "This is a mock verification result."
      "This is a mock verification result. Reason: " = true := by decide
  unfold provideMockResponse
  simp only [Option.any_some]
  split <;> split <;>
    first
      | exact strHasPreAppendRight _ _ _ (strHasPreAppendRight _ _ _ hbase)
      | exact strHasPreAppendRight _ _ _ (strHasPreAppendRight _ _ _
          (strHasPreAppendRight _ _ _ (strHasPreAppendRight _ _ _ hbase)))

/-- C4: On every failure inside the route analysis — missing API key, an
exception while reading the request, or any analysis failure (client not
initialized, model creation failure, API call failure or timeout,
unreadable or unparseable reply) — the route catches the error and returns
a mock verification object in a status-200 success response, never
propagating the error to the caller. -/
theorem routeFailureReturnsMock (st : RateState) (now : ℤ) (key : Bool)
    (form : FormResult) (genInit : Bool) (llm : LlmOutcome)
    (jp : String → Option Verification) (r1 r2 r3 : ℚ) (now2 : ℤ)
    (hfail : key = false ∨ (∃ msg, form = FormResult.fail msg) ∨
      (key = true ∧ (∃ f img, form = FormResult.ok f ∧ f.image = some img) ∧
        ¬(10 < (geminiPost st now key form genInit llm jp r1 r2 r3
          now2).state.apiCallsInLastMinute) ∧
        analysisFailure genInit llm jp)) :
    (geminiPost st now key form genInit llm jp r1 r2 r3 now2).response.httpStatus = 200 ∧
    (geminiPost st now key form genInit llm jp r1 r2 r3 now2).response.status = "success" ∧
    (geminiPost st now key form genInit llm jp r1 r2 r3 now2).response.errorFlag = false ∧
    ((geminiPost st now key form genInit llm jp r1 r2 r3 now2).response.verification.any
      (fun v => strHasPre "This is a mock verification result."
        v.analysisExplanation)) = true := by
  rcases hfail with rfl | ⟨msg, rfl⟩ | ⟨rfl, ⟨f, img, rfl, hi⟩, hcalls, hfail⟩
  · have hm := provideMockResponseIsMock
      (if 60000 < now - st.lastResetTime then now else st.lastResetTime)
      ((if 60000 < now - st.lastResetTime then 0 else st.apiCallsInLastMinute) + 1)
      "API key missing" [] r1 r2 r3 now2
    refine ⟨?_, ?_, ?_, ?_⟩
    · simpa [geminiPost, geminiPostCore] using hm.1
    · simpa [geminiPost, geminiPostCore] using hm.2.1
    · simpa [geminiPost, geminiPostCore] using hm.2.2.1
    · simpa [geminiPost, geminiPostCore] using hm.2.2.2
  · rcases key with _ | _
    · have hm := provideMockResponseIsMock
        (if 60000 < now - st.lastResetTime then now else st.lastResetTime)
        ((if 60000 < now - st.lastResetTime then 0 else st.apiCallsInLastMinute) + 1)
        "API key missing" [] r1 r2 r3 now2
      refine ⟨?_, ?_, ?_, ?_⟩
      · simpa [geminiPost, geminiPostCore] using hm.1
      · simpa [geminiPost, geminiPostCore] using hm.2.1
      · simpa [geminiPost, geminiPostCore] using hm.2.2.1
      · simpa [geminiPost, geminiPostCore] using hm.2.2.2
    · have hm := provideMockResponseIsMock
        (if 60000 < now - st.lastResetTime then now else st.lastResetTime)
        ((if 60000 < now - st.lastResetTime then 0 else st.apiCallsInLastMinute) + 1)
        msg [] r1 r2 r3 now2
      refine ⟨?_, ?_, ?_, ?_⟩
      · simpa [geminiPost, geminiPostCore] using hm.1
      · simpa [geminiPost, geminiPostCore] using hm.2.1
      · simpa [geminiPost, geminiPostCore] using hm.2.2.1
      · simpa [geminiPost, geminiPostCore] using hm.2.2.2
  · have hcalls' : ¬(10 <
        (if 60000 < now - st.lastResetTime then 0 else st.apiCallsInLastMinute) + 1) := by
      simpa [geminiPost] using hcalls
    have hmock := analysisFailureGivesMock genInit llm jp hfail
    refine ⟨?_, ?_, ?_, ?_⟩ <;>
      simp [geminiPost, geminiPostCore, hi, hcalls', hmock]

/-- Witness for C4 at a concrete POST with the API key missing. -/
theorem routeFailureReturnsMockWitness :
    (geminiPost ⟨0, 0⟩ 1 false (FormResult.ok ⟨none, [], []⟩) true
      (LlmOutcome.reply "") (fun _ => none) 0 0 0 1).response.httpStatus = 200 ∧
    (geminiPost ⟨0, 0⟩ 1 false (FormResult.ok ⟨none, [], []⟩) true
      (LlmOutcome.reply "") (fun _ => none) 0 0 0 1).response.status = "success" ∧
    (geminiPost ⟨0, 0⟩ 1 false (FormResult.ok ⟨none, [], []⟩) true
      (LlmOutcome.reply "") (fun _ => none) 0 0 0 1).response.errorFlag = false ∧
    ((geminiPost ⟨0, 0⟩ 1 false (FormResult.ok ⟨none, [], []⟩) true
      (LlmOutcome.reply "") (fun _ => none) 0 0 0 1).response.verification.any
      (fun v => strHasPre "This is a mock verification result."
        v.analysisExplanation)) = true :=
  routeFailureReturnsMock ⟨0, 0⟩ 1 false (FormResult.ok ⟨none, [], []⟩) true
    (LlmOutcome.reply "") (fun _ => none) 0 0 0 1 (Or.inl rfl)

/-- C9: On both admin routes a request without a Bearer authorization header
receives 401 and a verified non-admin caller receives 403, the privileged
operation is performed only when both checks pass, and make-admin
additionally returns 400 when targetUserId is absent and 404 when the
target auth user does not exist. -/
theorem adminRouteAuthz (env : AdminEnv) (h : Option String) (body : BodyResult) :
    (badAuthHeader h →
      adminUsersGet env h = ⟨401, false⟩ ∧ makeAdminPost env h body = ⟨401, false⟩) ∧
    (∀ hdr uid, h = some hdr → strHasPre "Bearer " hdr = true →
      env.verifyIdToken (splitBearerSecond hdr) = some uid →
      isAdminCheck env uid = false →
      adminUsersGet env h = ⟨403, false⟩ ∧ makeAdminPost env h body = ⟨403, false⟩) ∧
    ((adminUsersGet env h).performedPrivileged = true →
      ∃ hdr uid, h = some hdr ∧ strHasPre "Bearer " hdr = true ∧
        env.verifyIdToken (splitBearerSecond hdr) = some uid ∧
        isAdminCheck env uid = true) ∧
    ((makeAdminPost env h body).performedPrivileged = true →
      ∃ hdr uid, h = some hdr ∧ strHasPre "Bearer " hdr = true ∧
        env.verifyIdToken (splitBearerSecond hdr) = some uid ∧
        isAdminCheck env uid = true) ∧
    (∀ hdr uid, h = some hdr → strHasPre "Bearer " hdr = true →
      env.verifyIdToken (splitBearerSecond hdr) = some uid →
      isAdminCheck env uid = true → body = BodyResult.parsed none →
      makeAdminPost env h body = ⟨400, false⟩) ∧
    (∀ hdr uid tid, h = some hdr → strHasPre "Bearer " hdr = true →
      env.verifyIdToken (splitBearerSecond hdr) = some uid →
      isAdminCheck env uid = true → body = BodyResult.parsed (some tid) →
      ¬(tid = "") → env.authUserExists tid = false →
      makeAdminPost env h body = ⟨404, false⟩) := by
  refine ⟨?_, ?_, ?_, ?_, ?_, ?_⟩
  · intro hbad
    rcases h with _ | hdr
    · exact ⟨rfl, rfl⟩
    · have : strHasPre "Bearer " hdr = false := hbad
      constructor <;> simp [adminUsersGet, makeAdminPost, this]
  · intro hdr uid hh hpre hver hadm
    subst hh
    constructor <;> simp [adminUsersGet, makeAdminPost, hpre, hver, hadm]
  · intro hperf
    rcases h with _ | hdr
    · exact absurd hperf (by simp [adminUsersGet])
    · rcases hpre : strHasPre "Bearer " hdr with _ | _
      · exact absurd hperf (by simp [adminUsersGet, hpre])
      · rcases hver : env.verifyIdToken (splitBearerSecond hdr) with _ | uid
        · exact absurd hperf (by simp [adminUsersGet, hpre, hver])
        · rcases hadm : isAdminCheck env uid with _ | _
          · exact absurd hperf (by simp [adminUsersGet, hpre, hver, hadm])
          · exact ⟨hdr, uid, rfl, hpre, hver, hadm⟩
  · intro hperf
    rcases h with _ | hdr
    · exact absurd hperf (by simp [makeAdminPost])
    · rcases hpre : strHasPre "Bearer " hdr with _ | _
      · exact absurd hperf (by simp [makeAdminPost, hpre])
      · rcases hver : env.verifyIdToken (splitBearerSecond hdr) with _ | uid
        · exact absurd hperf (by simp [makeAdminPost, hpre, hver])
        · rcases hadm : isAdminCheck env uid with _ | _
          · exact absurd hperf (by simp [makeAdminPost, hpre, hver, hadm])
          · exact ⟨hdr, uid, rfl, hpre, hver, hadm⟩
  · intro hdr uid hh hpre hver hadm hbody
    subst hh
    subst hbody
    simp [makeAdminPost, hpre, hver, hadm]
  · intro hdr uid tid hh hpre hver hadm hbody htid hex
    subst hh
    subst hbody
    simp [makeAdminPost, hpre, hver, hadm, htid, hex]

/-- Witness for C9: a verified non-admin caller gets 403 on both routes and
the privileged operation is not performed. -/
theorem adminRouteAuthzWitness :
    adminUsersGet envDemo (some "Bearer tok") = ⟨403, false⟩ ∧
    makeAdminPost envDemo (some "Bearer tok") (BodyResult.parsed none) = ⟨403, false⟩ :=
  (adminRouteAuthz envDemo (some "Bearer tok") (BodyResult.parsed none)).2.1
    "Bearer tok" "u1" rfl (by decide) (by decide) (by decide)
